import Mathlib

/-!
Verification of the gnet reactor engine (darinkes/gnet).

A shallow embedding, in Lean 4, of the parts of the gnet event-driven
networking engine that the specification talks about:

* `parseAddr` (gnet.go) together with faithful models of Go's
  `strings.Contains(s, "://")` and `strings.Split(s, "://")`;
* the polling callbacks installed by `Client.activateMainReactor` and
  `server.activateSubReactor` (reactor_linux.go), which dispatch readiness
  events to the inbound/outbound handlers according to the emptiness of the
  connection's outbound buffer;
* the ticker-launch condition of the reactor activation functions;
* the client shutdown machinery: `Client.signalShutdown` (a `sync.Once`
  guarded condition-variable signal), `Client.stop` (the sentinel-job
  teardown protocol) and the `connect` entry point (client.go);
* the setup phases of `Serve` and `Connect` (gnet.go), with the results of
  the external syscall-backed steps (listen, dial, resolve, File,
  SetNonblock) supplied by an environment record.

Strings are modelled as `List Char`; Go maps as `Nat → Option _` tables;
fallible external calls as `Option GErr` results threaded through the same
control flow as the Go source.
-/

namespace Gnet

/-- Errors of the engine.  `errShutdown` is the designated sentinel error
("shutting down") that the client's injected shutdown job returns; it is
declared elsewhere in the gnet package, the client code (client.go) only
returns it.  `errOther` stands for every other error value. -/
inductive GErr : Type where
  | errShutdown : GErr
  | errOther : Nat → GErr
deriving DecidableEq, Repr

/-! ## parseAddr (gnet.go, lines 307-315)

```go
func parseAddr(addr string) (network, address string) {
    network = "tcp"
    address = addr
    if strings.Contains(address, "://") {
        network = strings.Split(address, "://")[0]
        address = strings.Split(address, "://")[1]
    }
    return
}
```

`strings.Split(s, "://")` splits `s` around each non-overlapping,
leftmost-first instance of the separator `"://"`.  `startsWithSep`,
`containsSep` and `splitSep` embed the separator-specific behaviour of
`strings.Contains` / `strings.Split` for the fixed separator `"://"`. -/

/-- Does the character list start with the three characters `"://"`? -/
def startsWithSep : List Char → Bool
  | c :: d :: e :: _ => c == ':' && d == '/' && e == '/'
  | _ => false

/-- Embedding of Go's `strings.Contains(s, "://")`: some position of `s`
starts with the separator. -/
def containsSep : List Char → Bool
  | [] => false
  | c :: rest => startsWithSep (c :: rest) || containsSep rest

/-- Embedding of Go's `strings.Split(s, "://")`: split around each
non-overlapping instance of `"://"`, scanning left to right. -/
def splitSep : List Char → List (List Char)
  | [] => [[]]
  | c :: rest =>
    if startsWithSep (c :: rest) then
      [] :: splitSep (rest.drop 2)
    else
      match splitSep rest with
      | [] => [[c]]
      | x :: xs => (c :: x) :: xs
termination_by s => s.length
decreasing_by
  all_goals simp [List.length_drop]
  omega

/-- The default network `"tcp"`. -/
def tcpS : List Char := ['t', 'c', 'p']

/-- Embedding of `parseAddr` (gnet.go).  In Go, `Split` is only indexed when
`Contains` returned true, so index 1 always exists; `getD` supplies an
irrelevant default. -/
def parseAddr (addr : List Char) : List Char × List Char :=
  if containsSep addr then
    ((splitSep addr).getD 0 [], (splitSep addr).getD 1 [])
  else
    (tcpS, addr)

lemma containsSep_cons (c : Char) (rest : List Char) :
    containsSep (c :: rest) = (startsWithSep (c :: rest) || containsSep rest) := rfl

lemma splitSep_nil : splitSep [] = [[]] := by rw [splitSep]

lemma splitSep_cons (c : Char) (rest : List Char) :
    splitSep (c :: rest) =
      if startsWithSep (c :: rest) then
        [] :: splitSep (rest.drop 2)
      else
        match splitSep rest with
        | [] => [[c]]
        | x :: xs => (c :: x) :: xs := by
  rw [splitSep]

/-- A list with no occurrence of `"://"` is returned whole by the splitter
(one chunk, as Go's `strings.Split` does). -/
lemma splitSep_of_not_contains (s : List Char) (h : containsSep s = false) :
    splitSep s = [s] := by
  induction s with
  | nil => exact splitSep_nil
  | cons c rest ih =>
    rw [containsSep_cons, Bool.or_eq_false_iff] at h
    rw [splitSep_cons, if_neg (by simp [h.1]), ih h.2]

/-- Splitting a list whose first separator occurrence sits right after
`pre`: the split is `pre` followed by the split of the remainder.  The
separator `"://"` cannot straddle the boundary because no proper suffix of
it is also a proper prefix. -/
lemma splitSep_append (pre post : List Char) (h : containsSep pre = false) :
    splitSep (pre ++ ':' :: '/' :: '/' :: post) = pre :: splitSep post := by
  induction pre with
  | nil =>
    rw [List.nil_append, splitSep_cons, if_pos (by simp [startsWithSep])]
    simp
  | cons c pre' ih =>
    rw [containsSep_cons, Bool.or_eq_false_iff] at h
    have hsw : startsWithSep (c :: (pre' ++ ':' :: '/' :: '/' :: post)) = false := by
      rcases pre' with _ | ⟨d, pre''⟩
      · simp [startsWithSep]
      · rcases pre'' with _ | ⟨e, tl⟩
        · simp [startsWithSep]
        · simpa [startsWithSep] using h.1
    rw [List.cons_append, splitSep_cons, if_neg (by simp [hsw]), ih h.2]

/-- A list of the form `pre ++ "://" ++ post` does contain the separator. -/
lemma containsSep_append_sep (pre post : List Char) :
    containsSep (pre ++ ':' :: '/' :: '/' :: post) = true := by
  induction pre with
  | nil => rw [List.nil_append, containsSep_cons]; simp [startsWithSep]
  | cons c pre' ih => rw [List.cons_append, containsSep_cons, ih, Bool.or_true]

/-- The network component of `parseAddr` on an address whose first
separator occurrence sits right after `pre`. -/
lemma parseAddr_first_component (pre post : List Char) (h : containsSep pre = false) :
    (parseAddr (pre ++ ':' :: '/' :: '/' :: post)).1 = pre := by
  rw [parseAddr, if_pos (by simp [containsSep_append_sep]), splitSep_append pre post h]
  rfl

/-- The seven network schemes named by the spec's address grammar. -/
def schemes : List (List Char) :=
  [['t', 'c', 'p'], ['t', 'c', 'p', '4'], ['t', 'c', 'p', '6'],
   ['u', 'd', 'p'], ['u', 'd', 'p', '4'], ['u', 'd', 'p', '6'],
   ['u', 'n', 'i', 'x']]

/-- Claim C7: for every address of the form `scheme://hp` where `scheme` is
one of tcp/tcp4/tcp6/udp/udp4/udp6/unix and `hp` contains no further
`"://"`, `parseAddr` returns `(scheme, hp)`; and for every address not
containing `"://"` at all, `parseAddr` returns network `"tcp"` and the
input unchanged. -/
theorem parseAddr_scheme_and_bare (hp s : List Char)
    (hhp : containsSep hp = false) (hs : containsSep s = false) :
    (∀ sch ∈ schemes, parseAddr (sch ++ ':' :: '/' :: '/' :: hp) = (sch, hp))
    ∧ parseAddr s = (tcpS, s) := by
  constructor
  · intro sch hmem
    have hcs : containsSep sch = false := by
      simp only [schemes, List.mem_cons, List.not_mem_nil, or_false] at hmem
      rcases hmem with rfl | rfl | rfl | rfl | rfl | rfl | rfl <;> decide
    rw [parseAddr, if_pos (by simp [containsSep_append_sep]),
      splitSep_append sch hp hcs, splitSep_of_not_contains hp hhp]
    rfl
  · rw [parseAddr, if_neg (by simp [hs])]

theorem parseAddr_scheme_and_bare_witness :
    containsSep ['1', ':', '5'] = false
    ∧ parseAddr (['u', 'd', 'p'] ++ ':' :: '/' :: '/' :: ['1', ':', '5'])
        = (['u', 'd', 'p'], ['1', ':', '5']) := by
  refine ⟨by decide, ?_⟩
  exact (parseAddr_scheme_and_bare ['1', ':', '5'] ['x'] (by decide) (by decide)).1
    ['u', 'd', 'p'] (by simp [schemes])

/-- Claim C10: on an address containing `"://"` at least twice — written as
`pre1 ++ "://" ++ pre2 ++ "://" ++ post2` with the first occurrence right
after `pre1` and the second right after `pre2` — `parseAddr` returns as the
address only the segment between the first and second occurrence,
discarding everything from the second separator onward. -/
theorem parseAddr_two_seps (pre1 pre2 post2 : List Char)
    (h1 : containsSep pre1 = false) (h2 : containsSep pre2 = false) :
    parseAddr (pre1 ++ ':' :: '/' :: '/' :: (pre2 ++ ':' :: '/' :: '/' :: post2))
      = (pre1, pre2) := by
  rw [parseAddr, if_pos (by simp [containsSep_append_sep]),
    splitSep_append pre1 _ h1, splitSep_append pre2 post2 h2]
  rfl

theorem parseAddr_two_seps_witness :
    parseAddr (['t', 'c', 'p'] ++ ':' :: '/' :: '/' :: (['a'] ++ ':' :: '/' :: '/' :: ['b']))
      = (['t', 'c', 'p'], ['a']) :=
  parseAddr_two_seps ['t', 'c', 'p'] ['a'] ['b'] (by decide) (by decide)

/-! ## The polling callbacks (reactor_linux.go)

`Client.activateMainReactor` (lines 15-43) and `server.activateSubReactor`
(lines 53-80) each hand `poller.Polling` a callback
`func(fd int, ev uint32, job internal.Job) error`.  The callback looks the
descriptor up in the loop's `connections` map; when present it switches on
`c.outboundBuffer.IsEmpty()`: non-empty dispatches only to the outbound
handler (`loopClientOut` / `loopOut`) and only when `ev & netpoll.OutEvents`
is non-zero, empty dispatches only to the inbound handler (`loopClientIn` /
`loopIn`) and only when `ev & netpoll.InEvents` is non-zero; every other
path returns `nil`.  The connection state the callback inspects is the
result of `outboundBuffer.IsEmpty()`; the handlers themselves live outside
this dispatch decision and are represented by which one gets called and by
an abstract error-returning behaviour. -/

/-- State of a connection as far as the dispatch decision reads it: the
value of `c.outboundBuffer.IsEmpty()`. -/
structure ConnState : Type where
  outboundIsEmpty : Bool
deriving DecidableEq, Repr

/-- Which handler a polling callback invoked. -/
inductive HandlerCall : Type where
  | clientOut : HandlerCall
  | clientIn : HandlerCall
  | loopOut : HandlerCall
  | loopIn : HandlerCall
deriving DecidableEq, Repr

/-- The polling callback installed by `Client.activateMainReactor`
(reactor_linux.go, lines 22-42).  Returns which handler was invoked (if
any) and the error value returned to `Polling`; `hOutErr` / `hInErr` give
the abstract results of `loopClientOut` / `loopClientIn`.  `inEvents` and
`outEvents` are the `netpoll.InEvents` / `netpoll.OutEvents` masks. -/
def clientMainCallback (hOutErr hInErr : ConnState → Option GErr)
    (connections : Nat → Option ConnState) (inEvents outEvents fd ev : Nat) :
    Option HandlerCall × Option GErr :=
  match connections fd with
  | some c =>
    match c.outboundIsEmpty with
    | false =>
      if ev &&& outEvents ≠ 0 then (some HandlerCall.clientOut, hOutErr c)
      else (none, none)
    | true =>
      if ev &&& inEvents ≠ 0 then (some HandlerCall.clientIn, hInErr c)
      else (none, none)
  | none => (none, none)

/-- The polling callback installed by `server.activateSubReactor`
(reactor_linux.go, lines 60-79); same shape with `loopOut` / `loopIn`. -/
def subReactorCallback (hOutErr hInErr : ConnState → Option GErr)
    (connections : Nat → Option ConnState) (inEvents outEvents fd ev : Nat) :
    Option HandlerCall × Option GErr :=
  match connections fd with
  | some c =>
    match c.outboundIsEmpty with
    | false =>
      if ev &&& outEvents ≠ 0 then (some HandlerCall.loopOut, hOutErr c)
      else (none, none)
    | true =>
      if ev &&& inEvents ≠ 0 then (some HandlerCall.loopIn, hInErr c)
      else (none, none)
  | none => (none, none)

/-- Modelled from the spec: the Notifier's wait call (`Poller.Polling` in
the netpoll package, not under src/) "keeps waiting until the callback
returns a non-nil error" — the loop keeps polling exactly when the callback
returned `nil`. -/
def pollingContinues (err : Option GErr) : Bool := err.isNone

/-- Claim C1: in both the client's main-reactor callback and the server's
sub-reactor callback, a descriptor present in the loop's connection table
is dispatched by the emptiness of its outbound buffer: non-empty — the
inbound handler is never invoked, and the outbound handler is invoked
exactly when the event mask has an `OutEvents` bit; empty — the outbound
handler is never invoked, and the inbound handler is invoked exactly when
the mask has an `InEvents` bit. -/
theorem dispatch_priority (hOutErr hInErr : ConnState → Option GErr)
    (connections : Nat → Option ConnState) (inEvents outEvents fd ev : Nat)
    (c : ConnState) (hc : connections fd = some c) :
    ((c.outboundIsEmpty = false →
      (clientMainCallback hOutErr hInErr connections inEvents outEvents fd ev).1
          ≠ some HandlerCall.clientIn
      ∧ ((clientMainCallback hOutErr hInErr connections inEvents outEvents fd ev).1
          = some HandlerCall.clientOut ↔ ev &&& outEvents ≠ 0))
    ∧ (c.outboundIsEmpty = true →
      (clientMainCallback hOutErr hInErr connections inEvents outEvents fd ev).1
          ≠ some HandlerCall.clientOut
      ∧ ((clientMainCallback hOutErr hInErr connections inEvents outEvents fd ev).1
          = some HandlerCall.clientIn ↔ ev &&& inEvents ≠ 0)))
    ∧ ((c.outboundIsEmpty = false →
      (subReactorCallback hOutErr hInErr connections inEvents outEvents fd ev).1
          ≠ some HandlerCall.loopIn
      ∧ ((subReactorCallback hOutErr hInErr connections inEvents outEvents fd ev).1
          = some HandlerCall.loopOut ↔ ev &&& outEvents ≠ 0))
    ∧ (c.outboundIsEmpty = true →
      (subReactorCallback hOutErr hInErr connections inEvents outEvents fd ev).1
          ≠ some HandlerCall.loopOut
      ∧ ((subReactorCallback hOutErr hInErr connections inEvents outEvents fd ev).1
          = some HandlerCall.loopIn ↔ ev &&& inEvents ≠ 0))) := by
  refine ⟨⟨fun hb => ?_, fun hb => ?_⟩, ⟨fun hb => ?_, fun hb => ?_⟩⟩ <;>
    simp only [clientMainCallback, subReactorCallback, hc, hb] <;>
    by_cases hev : ev &&& outEvents ≠ 0 <;> by_cases hev2 : ev &&& inEvents ≠ 0 <;>
    simp [hev, hev2]

theorem dispatch_priority_witness :
    ((fun _ : Nat => some (ConnState.mk false)) 3 = some (ConnState.mk false))
    ∧ (clientMainCallback (fun _ => none) (fun _ => none)
        (fun _ => some (ConnState.mk false)) 1 4 3 4).1 = some HandlerCall.clientOut :=
  ⟨rfl,
    ((dispatch_priority (fun _ => none) (fun _ => none)
        (fun _ => some (ConnState.mk false)) 1 4 3 4
        (ConnState.mk false) rfl).1.1 rfl).2.mpr (by decide)⟩

/-- Claim C9: in both polling callbacks, a readiness event for a descriptor
absent from the loop's connection table invokes no handler and returns a
nil error, so the loop keeps polling. -/
theorem absent_fd_ignored (hOutErr hInErr : ConnState → Option GErr)
    (connections : Nat → Option ConnState) (inEvents outEvents fd ev : Nat)
    (hc : connections fd = none) :
    clientMainCallback hOutErr hInErr connections inEvents outEvents fd ev = (none, none)
    ∧ subReactorCallback hOutErr hInErr connections inEvents outEvents fd ev = (none, none)
    ∧ pollingContinues
        (clientMainCallback hOutErr hInErr connections inEvents outEvents fd ev).2 = true
    ∧ pollingContinues
        (subReactorCallback hOutErr hInErr connections inEvents outEvents fd ev).2 = true := by
  simp [clientMainCallback, subReactorCallback, hc, pollingContinues]

theorem absent_fd_ignored_witness :
    ((fun _ : Nat => (none : Option ConnState)) 7 = none)
    ∧ clientMainCallback (fun _ => none) (fun _ => none)
        (fun _ => none) 1 4 7 5 = (none, none) :=
  ⟨rfl, (absent_fd_ignored (fun _ => none) (fun _ => none)
      (fun _ => none) 1 4 7 5 rfl).1⟩

/-! ## Ticker launch (reactor_linux.go) and reactor activation

`Client.activateMainReactor` starts `go cl.mainLoop.loopTicker()` exactly
when `cl.mainLoop.idx == 0 && cl.opts.Ticker`; `server.activateSubReactor`
starts `go lp.loopTicker()` exactly when `lp.idx == 0 && svr.opts.Ticker`;
`server.activateMainReactor` (the accept reactor, lines 45-51) has no
ticker code at all.  The activation record keeps the launch decision
together with the polling callback the function installs. -/

/-- What a reactor activation function does before blocking in `Polling`:
whether it launched the ticker goroutine, and which callback it handed to
`poller.Polling`. -/
structure ReactorActivation : Type where
  tickerLaunched : Bool
  callback : (ConnState → Option GErr) → (ConnState → Option GErr) →
    (Nat → Option ConnState) → Nat → Nat → Nat → Nat →
    Option HandlerCall × Option GErr

/-- Embedding of `Client.activateMainReactor` (reactor_linux.go, 15-43). -/
def clientActivateMainReactor (idx : Nat) (tickerOpt : Bool) : ReactorActivation :=
  { tickerLaunched := idx == 0 && tickerOpt
    callback := clientMainCallback }

/-- Embedding of `server.activateSubReactor` (reactor_linux.go, 53-80). -/
def serverActivateSubReactor (idx : Nat) (tickerOpt : Bool) : ReactorActivation :=
  { tickerLaunched := idx == 0 && tickerOpt
    callback := subReactorCallback }

/-- Embedding of `server.activateMainReactor` (reactor_linux.go, 45-51):
the accept reactor launches no ticker; its callback (acceptNewConnection)
is outside the claims' scope and modelled as invoking no table handler. -/
def serverActivateMainReactor : ReactorActivation :=
  { tickerLaunched := false
    callback := fun _ _ _ _ _ _ _ => (none, none) }

/-- The client's main loop is constructed with `idx: 0`
(`Client.activateReactors`, client.go line 108). -/
def clientLoopIdx : Nat := 0

/-- Claim C6: a ticker thread is launched for a reactor loop iff the loop's
index is 0 and the Ticker option is enabled — for the client's main loop
(whose index is always 0) and for every server worker reactor — and the
server's accept reactor never launches a ticker. -/
theorem ticker_launch_condition :
    (∀ idx tickerOpt, (clientActivateMainReactor idx tickerOpt).tickerLaunched = true
        ↔ (idx = 0 ∧ tickerOpt = true))
    ∧ (∀ idx tickerOpt, (serverActivateSubReactor idx tickerOpt).tickerLaunched = true
        ↔ (idx = 0 ∧ tickerOpt = true))
    ∧ serverActivateMainReactor.tickerLaunched = false
    ∧ clientLoopIdx = 0 := by
  refine ⟨fun idx t => ?_, fun idx t => ?_, rfl, rfl⟩ <;>
    simp [clientActivateMainReactor, serverActivateSubReactor]

theorem ticker_launch_condition_witness :
    (clientActivateMainReactor 0 true).tickerLaunched = true :=
  (ticker_launch_condition.1 0 true).mpr ⟨rfl, rfl⟩

/-! ## Client shutdown signal (client.go, lines 97-103)

```go
func (cl *Client) signalShutdown() {
    cl.once.Do(func() {
        cl.cond.L.Lock()
        cl.cond.Signal()
        cl.cond.L.Unlock()
    })
}
```

`sync.Once.Do(f)` runs `f` exactly on the first call and is a no-op on
every later call.  The state records the `sync.Once` flag and how many
times the guarded body ran (equivalently, how many times `cond.Signal` was
issued). -/

/-- Shutdown-controller state of a `Client`: the `sync.Once` done flag and
the number of times the guarded body (the condition-variable signal) has
run. -/
structure ShutdownState : Type where
  onceDone : Bool
  signalCount : Nat
deriving DecidableEq, Repr

/-- `Client.signalShutdown`: run the guarded body only when the
`sync.Once` has not fired yet. -/
def signalShutdown (st : ShutdownState) : ShutdownState :=
  if st.onceDone then st
  else { onceDone := true, signalCount := st.signalCount + 1 }

/-- The state of a freshly constructed client: once not fired, no signal
issued. -/
def initShutdownState : ShutdownState := ShutdownState.mk false 0

lemma signalShutdown_init : signalShutdown initShutdownState = ShutdownState.mk true 1 := rfl

lemma signalShutdown_done (st : ShutdownState) (h : st.onceDone = true) :
    signalShutdown st = st := by
  simp [signalShutdown, h]

/-- Claim C3: the shutdown signal is idempotent — for any n ≥ 1, n calls to
`signalShutdown` from the initial state leave the once fired and the
guarded body (the condition-variable signal) run exactly once, and a second
call on any state is a no-op relative to the first. -/
theorem signalShutdown_idempotent (n : Nat) (hn : 1 ≤ n) :
    signalShutdown^[n] initShutdownState = ShutdownState.mk true 1
    ∧ ∀ st : ShutdownState, signalShutdown (signalShutdown st) = signalShutdown st := by
  constructor
  · obtain ⟨m, rfl⟩ := Nat.exists_eq_add_of_le hn
    rw [Nat.add_comm, Function.iterate_add_apply, Function.iterate_one,
      signalShutdown_init]
    exact Function.iterate_fixed (signalShutdown_done _ rfl) m
  · intro st
    rcases hd : st.onceDone with hfalse | htrue
    · rw [show signalShutdown st = ShutdownState.mk true (st.signalCount + 1) by
        simp [signalShutdown, hd]]
      exact signalShutdown_done _ rfl
    · simp [signalShutdown_done st hd]

theorem signalShutdown_idempotent_witness :
    1 ≤ 2 ∧ signalShutdown^[2] initShutdownState = ShutdownState.mk true 1 :=
  ⟨by decide, (signalShutdown_idempotent 2 (by decide)).1⟩

/-! ## Client teardown (client.go, lines 138-154) and connect (156-187)

```go
func (cl *Client) stop() {
    cl.waitForShutdown()
    if cl.mainLoop != nil {
        sniffError(cl.mainLoop.poller.Trigger(func() error { return errShutdown }))
    }
    cl.wg.Wait()
    if cl.mainLoop != nil {
        sniffError(cl.mainLoop.poller.Close())
    }
}
```

`waitForShutdown` blocks in `cond.Wait` until `signalShutdown` has issued
the signal; this blocking is modelled by the `signalFired` flag: when it is
false the run stops inside the wait and nothing after it executes
(`completed = false`). -/

/-- The observable steps of `Client.stop`, in execution order. -/
inductive StopStep : Type where
  | waitShutdown : StopStep
  | triggerSentinel : StopStep
  | wgWait : StopStep
  | pollerClose : StopStep
deriving DecidableEq, Repr

/-- A run of `Client.stop`: the steps executed in order, and whether the
run got past the blocking wait and finished. -/
structure StopRun : Type where
  steps : List StopStep
  completed : Bool
deriving DecidableEq, Repr

/-- The job `Client.stop` injects with `poller.Trigger`:
`func() error { return errShutdown }`. -/
def sentinelJob : Option GErr := some GErr.errShutdown

/-- Embedding of `Client.stop`.  `signalFired` is whether `signalShutdown`
has run (so `cond.Wait` returns); `mainLoopPresent` is whether
`cl.mainLoop != nil`. -/
def clientStop (signalFired mainLoopPresent : Bool) : StopRun :=
  if signalFired then
    { steps := [StopStep.waitShutdown]
        ++ (if mainLoopPresent then [StopStep.triggerSentinel] else [])
        ++ [StopStep.wgWait]
        ++ (if mainLoopPresent then [StopStep.pollerClose] else [])
      completed := true }
  else
    { steps := [StopStep.waitShutdown], completed := false }

/-- Claim C4: `Client.stop` follows the sentinel protocol in a fixed order
— block until the shutdown signal has fired (before the signal nothing
else runs), then inject the job returning the sentinel `errShutdown`, then
wait for the reactor goroutine, and only after that close the poller; and
a callback returning the sentinel is exactly what ends `Polling`. -/
theorem stop_sentinel_protocol :
    clientStop true true
      = StopRun.mk [StopStep.waitShutdown, StopStep.triggerSentinel,
          StopStep.wgWait, StopStep.pollerClose] true
    ∧ clientStop false true = StopRun.mk [StopStep.waitShutdown] false
    ∧ sentinelJob = some GErr.errShutdown
    ∧ pollingContinues sentinelJob = false := by
  refine ⟨?_, rfl, rfl, rfl⟩
  simp [clientStop]

/-- Which observable events the `connect` entry point (client.go, 156-187)
produces. -/
inductive ConnectEvent : Type where
  | startReactors : ConnectEvent
  | establishedCallback : ConnectEvent
  | stopRun : StopRun → ConnectEvent
deriving DecidableEq, Repr

/-- The `Action` vocabulary (gnet.go, lines 25-36). -/
inductive Action : Type where
  | None : Action
  | Close : Action
  | Shutdown : Action
deriving DecidableEq, Repr

/-- Embedding of `connect` (client.go, lines 156-187).  `startErr` is the
result of `cl.start()`; on failure the error is returned and the deferred
`cl.stop()` was never registered.  On success `cl.mainLoop` has been set
(so the loop is present for the deferred stop), `OnConnectionEstablished`
fires, and the Go `switch` on its action — `case None:` empty,
`case Shutdown: return nil`, no case for `Close` — falls through to
`return nil` on every branch, running the deferred `cl.stop()` before
`connect` returns.  `signalFired` is whether `signalShutdown` has run by
the time the deferred stop reaches `cond.Wait`. -/
def gnetConnect (startErr : Option GErr) (establishedAction : Action)
    (signalFired : Bool) : List ConnectEvent × Option GErr :=
  match startErr with
  | some e => ([ConnectEvent.startReactors], some e)
  | none =>
    match establishedAction with
    | Action.None =>
      ([ConnectEvent.startReactors, ConnectEvent.establishedCallback,
        ConnectEvent.stopRun (clientStop signalFired true)], none)
    | Action.Shutdown =>
      ([ConnectEvent.startReactors, ConnectEvent.establishedCallback,
        ConnectEvent.stopRun (clientStop signalFired true)], none)
    | Action.Close =>
      ([ConnectEvent.startReactors, ConnectEvent.establishedCallback,
        ConnectEvent.stopRun (clientStop signalFired true)], none)

/-- Claim C2, evaluated at the failing input: after a successful start with
`OnConnectionEstablished` returning `Shutdown` (and the shutdown signal not
yet fired, as in a normally running reactor), the callback does fire
exactly once, but the run is identical to the `None` case: the deferred
stop blocks inside `waitForShutdown` without triggering the sentinel,
without closing the poller, and without completing — the client is not
torn down before `connect` returns. -/
theorem connect_shutdown_not_immediate :
    (gnetConnect none Action.Shutdown false).1.count ConnectEvent.establishedCallback = 1
    ∧ gnetConnect none Action.Shutdown false
        = ([ConnectEvent.startReactors, ConnectEvent.establishedCallback,
            ConnectEvent.stopRun (StopRun.mk [StopStep.waitShutdown] false)], none)
    ∧ gnetConnect none Action.Shutdown false = gnetConnect none Action.None false := by
  refine ⟨?_, rfl, rfl⟩
  decide

/-! ## Setup phases of Serve and Connect (gnet.go, lines 216-305)

The fallible external steps (net.Listen / net.ListenPacket and their
reuse-port variants, `ln.system()`, net.ResolveUDPAddr / net.ResolveTCPAddr,
net.DialUDP / net.DialTCP, `File()`, `unix.SetNonblock`) are syscall-backed
calls whose results an environment record supplies; the control flow that
consumes the results is the one of the Go source.  `orchestratorStarted`
records whether the final call — `serve(eventHandler, &ln, options)` or
`connect(eventHandler, &con, options)`, the point where reactors are
constructed and started — was reached. -/

/-- Results of the external calls `Serve` makes during setup, and of the
inner `serve` when it is reached. -/
structure ServeEnv : Type where
  reusePortListenPacketRes : Option GErr
  listenPacketRes : Option GErr
  reusePortListenRes : Option GErr
  listenRes : Option GErr
  systemRes : Option GErr
  serveRes : Option GErr
deriving DecidableEq, Repr

/-- Outcome of an entry point: the returned error and whether the
orchestrator (`serve` / `connect`) was reached. -/
structure EntryOutcome : Type where
  err : Option GErr
  orchestratorStarted : Bool
deriving DecidableEq, Repr

/-- The `"udp"` network string. -/
def udpS : List Char := ['u', 'd', 'p']

/-- The listen step of `Serve` (gnet.go, lines 227-239): network `"udp"`
listens for packets, everything else listens for streams, each picking the
reuse-port variant when the option is set. -/
def serveListenErr (env : ServeEnv) (reusePort : Bool) (network : List Char) :
    Option GErr :=
  if network = udpS then
    if reusePort then env.reusePortListenPacketRes else env.listenPacketRes
  else
    if reusePort then env.reusePortListenRes else env.listenRes

/-- Embedding of `Serve` (gnet.go, lines 216-252).  The `"unix"` branch
only removes a stale socket file (its error is sniffed and ignored) and
does not alter the error flow; `lnaddr` assignment is effect-free. -/
def gnetServe (env : ServeEnv) (reusePort : Bool) (addr : List Char) : EntryOutcome :=
  let network := (parseAddr addr).1
  match serveListenErr env reusePort network with
  | some e => EntryOutcome.mk (some e) false
  | none =>
    match env.systemRes with
    | some e => EntryOutcome.mk (some e) false
    | none => EntryOutcome.mk env.serveRes true

/-- Results of the external calls `Connect` makes during setup, and of the
inner `connect` when it is reached. -/
structure DialEnv : Type where
  resolveUDPRes : Option GErr
  dialUDPRes : Option GErr
  resolveTCPRes : Option GErr
  dialTCPRes : Option GErr
  fileRes : Option GErr
  setNonblockRes : Option GErr
  connectRes : Option GErr
deriving DecidableEq, Repr

/-- The steps of `Connect` after a successful dial (gnet.go, lines
286-304): extract the `*os.File` (`File()`), set the descriptor
non-blocking, then call the inner `connect`. -/
def connectAfterDial (env : DialEnv) : EntryOutcome :=
  match env.fileRes with
  | some e => EntryOutcome.mk (some e) false
  | none =>
    match env.setNonblockRes with
    | some e => EntryOutcome.mk (some e) false
    | none => EntryOutcome.mk env.connectRes true

/-- Embedding of `Connect` (gnet.go, lines 255-305): network `"udp"`
resolves and dials UDP, every other network resolves and dials TCP; each
failure returns immediately. -/
def gnetConnectEntry (env : DialEnv) (addr : List Char) : EntryOutcome :=
  let network := (parseAddr addr).1
  if network = udpS then
    match env.resolveUDPRes with
    | some e => EntryOutcome.mk (some e) false
    | none =>
      match env.dialUDPRes with
      | some e => EntryOutcome.mk (some e) false
      | none => connectAfterDial env
  else
    match env.resolveTCPRes with
    | some e => EntryOutcome.mk (some e) false
    | none =>
      match env.dialTCPRes with
      | some e => EntryOutcome.mk (some e) false
      | none => connectAfterDial env

/-- Claim C5: every setup failure — listen failure or `ln.system`
socket-option failure in `Serve`; address-resolution, dial,
file-descriptor-extraction or set-nonblock failure in `Connect` — is
returned synchronously to the caller and the orchestrator (`serve` /
`connect`), where reactors are constructed and started, is never
reached. -/
theorem setup_errors_synchronous (env : ServeEnv) (denv : DialEnv)
    (reusePort : Bool) (addr : List Char) (e : GErr) :
    (serveListenErr env reusePort (parseAddr addr).1 = some e →
      gnetServe env reusePort addr = EntryOutcome.mk (some e) false)
    ∧ (serveListenErr env reusePort (parseAddr addr).1 = none →
        env.systemRes = some e →
        gnetServe env reusePort addr = EntryOutcome.mk (some e) false)
    ∧ ((parseAddr addr).1 = udpS → denv.resolveUDPRes = some e →
        gnetConnectEntry denv addr = EntryOutcome.mk (some e) false)
    ∧ ((parseAddr addr).1 = udpS → denv.resolveUDPRes = none →
        denv.dialUDPRes = some e →
        gnetConnectEntry denv addr = EntryOutcome.mk (some e) false)
    ∧ ((parseAddr addr).1 ≠ udpS → denv.resolveTCPRes = some e →
        gnetConnectEntry denv addr = EntryOutcome.mk (some e) false)
    ∧ ((parseAddr addr).1 ≠ udpS → denv.resolveTCPRes = none →
        denv.dialTCPRes = some e →
        gnetConnectEntry denv addr = EntryOutcome.mk (some e) false)
    ∧ (denv.fileRes = some e →
        connectAfterDial denv = EntryOutcome.mk (some e) false)
    ∧ (denv.fileRes = none → denv.setNonblockRes = some e →
        connectAfterDial denv = EntryOutcome.mk (some e) false)
    ∧ ((gnetServe env reusePort addr).orchestratorStarted = true →
        serveListenErr env reusePort (parseAddr addr).1 = none
          ∧ env.systemRes = none) := by
  refine ⟨fun h1 => ?_, fun h1 h2 => ?_, fun hn h1 => ?_, fun hn h1 h2 => ?_,
    fun hn h1 => ?_, fun hn h1 h2 => ?_, fun h1 => ?_, fun h1 h2 => ?_, fun h => ?_⟩
  · simp [gnetServe, h1]
  · simp [gnetServe, h1, h2]
  · simp [gnetConnectEntry, hn, h1]
  · simp [gnetConnectEntry, hn, h1, h2]
  · simp [gnetConnectEntry, hn, h1]
  · simp [gnetConnectEntry, hn, h1, h2]
  · simp [connectAfterDial, h1]
  · simp [connectAfterDial, h1, h2]
  · revert h
    simp only [gnetServe]
    rcases serveListenErr env reusePort (parseAddr addr).1 with _ | e1
    · rcases hs : env.systemRes with _ | e2 <;> simp [hs]
    · simp

theorem setup_errors_synchronous_witness :
    (DialEnv.mk (some (GErr.errOther 7)) none none none none none none).resolveUDPRes
        = some (GErr.errOther 7)
    ∧ gnetConnectEntry (DialEnv.mk (some (GErr.errOther 7)) none none none none none none)
        (['u', 'd', 'p'] ++ ':' :: '/' :: '/' :: ['h'])
        = EntryOutcome.mk (some (GErr.errOther 7)) false :=
  ⟨rfl,
    (setup_errors_synchronous (ServeEnv.mk none none none none none none)
        (DialEnv.mk (some (GErr.errOther 7)) none none none none none none)
        false (['u', 'd', 'p'] ++ ':' :: '/' :: '/' :: ['h'])
        (GErr.errOther 7)).2.2.1
      (by rw [parseAddr_first_component ['u', 'd', 'p'] ['h'] (by decide)]; rfl) rfl⟩

/-! ## Client.Write (client.go, lines 75-77)

```go
func (cl *Client) Write(b []byte) {
    cl.conn.write(b)
}
```

No phase or readiness check of any kind: the call is delegated to
`cl.conn.write(b)` unconditionally.  `cl.conn` is only assigned inside
`activateReactors` (line 118); before that it is the nil pointer, and
`write` dereferencing it faults.  The outcome type also names the two
policies the spec leaves open — reject with an error, or block — so the
theorem can state that neither ever happens. -/

/-- What a call to `Client.Write` can do. -/
inductive WriteOutcome : Type where
  | delegated : List Nat → WriteOutcome
  | nilDeref : WriteOutcome
  | rejectedWithError : WriteOutcome
  | blockedUntilReady : WriteOutcome
deriving DecidableEq, Repr

/-- Embedding of `Client.Write`: the connection handle is `some` once
`activateReactors` has assigned `cl.conn`, `none` before. -/
def clientWrite (conn : Option Unit) (b : List Nat) : WriteOutcome :=
  match conn with
  | some _ => WriteOutcome.delegated b
  | none => WriteOutcome.nilDeref

/-- Claim C8: `Client.Write` performs no guard — it never rejects with an
error and never blocks; with the handle initialised it delegates the bytes
to the connection's write path, and before initialisation it dereferences
the nil handle rather than rejecting or blocking. -/
theorem write_unguarded :
    ∀ (conn : Option Unit) (b : List Nat),
      clientWrite conn b ≠ WriteOutcome.rejectedWithError
      ∧ clientWrite conn b ≠ WriteOutcome.blockedUntilReady
      ∧ clientWrite (some ()) b = WriteOutcome.delegated b
      ∧ clientWrite none b = WriteOutcome.nilDeref := by
  intro conn b
  rcases conn with _ | u <;> simp [clientWrite]

theorem write_unguarded_witness :
    clientWrite (some ()) [1, 2] = WriteOutcome.delegated [1, 2] :=
  (write_unguarded (some ()) [1, 2]).2.2.1

end Gnet
